import Mathlib

/-!
Verification of the BNPL metrics-aggregation core of the dashboard repository.

The development shallowly embeds the TypeScript source:

* `lib/snowflake.ts` — store client (`runCount`, `runScalar`), modelled as pure
  functions over the row set an executed query produced;
* `lib/constants.ts` (the `bnpl-queries` module) — SQL query catalog
  (`appliedCountSql` … `merchantBreakdownSql`), the bounded executor
  `withTimeoutNull`, and the aggregator `loadBnplData`, modelled over the
  gathered partial results of the thirteen parallel queries;
* `app/api/bnpl/route.ts` — the public `GET` entry point with its degraded
  `emptyPayload` fallback;
* `app/page.tsx` — the funnel drop-off computations of `DashboardPage`.

JavaScript numbers are modelled as exact rationals (`ℚ`); `Math.round` is
`⌊x + 1/2⌋` which agrees with the JS half-up rounding on all inputs the code
produces.  Fallible or asynchronous code is modelled by explicit outcome
types (`Option`, `Except`, `PromiseOutcome`), so totality of an embedded
function is totality of the original code path by construction.
-/

/-- JS `Math.round`: round half towards positive infinity. -/
def mathRound (q : ℚ) : ℤ := ⌊q + 1/2⌋

theorem mathRound_eq {q : ℚ} {n : ℤ} (h1 : (n : ℚ) ≤ q + 1/2) (h2 : q + 1/2 < n + 1) :
    mathRound q = n := by
  unfold mathRound
  rw [Int.floor_eq_iff]
  exact ⟨h1, by exact_mod_cast h2⟩

theorem mathRound_mono {a b : ℚ} (h : a ≤ b) : mathRound a ≤ mathRound b :=
  Int.floor_le_floor (by linarith)

/-!
## Bounded Executor (`withTimeoutNull`, lib/constants.ts lines 230–244)

The settling behaviour of the wrapped promise is reified as an outcome: it
either fulfills at time `t` with a value, rejects at time `t`, or never
settles.  The executor races it against a timer that resolves `null` at `ms`;
a promise settling in the same tick as the timer wins the race (microtasks
run before the timer macrotask).  The `catch` branch maps any rejection to
`null` as well, so the model returns `Option T` and is total by construction.
-/

inductive PromiseOutcome (T : Type) where
  | fulfilled (t : ℕ) (v : T)
  | rejected (t : ℕ)
  | pending
deriving DecidableEq

def withTimeoutNull {T : Type} (op : PromiseOutcome T) (ms : ℕ) : Option T :=
  match op with
  | .fulfilled t v => if t ≤ ms then some v else none
  | .rejected _ => none
  | .pending => none

/-- Per-query budgets of the loader (lib/constants.ts lines 247–248). -/
def BOUNDED_QUERY_TIMEOUT_MS : ℕ := 20000

def SLOW_QUERY_TIMEOUT_MS : ℕ := 8000

/-!
## Store Client (`runCount` / `runScalar`, lib/snowflake.ts lines 67–95)

A completed execution hands back a list of rows; each row is the ordered
`Object.values` of the row record.  JS values relevant to the two readers
are modelled by `JsVal`; `undef` stands for `undefined` (a missing first
column), `other` for values of any other runtime type (NaN included, since
both readers treat a NaN number exactly like a non-numeric value).
-/

inductive JsVal where
  | num (q : ℚ)
  | str (s : String)
  | jsNull
  | undef
  | other
deriving DecidableEq

/-- Digit-string value, as `parseInt(s, 10)` computes it on `/^\d+$/` input. -/
def digitsToNat (cs : List Char) : ℕ :=
  cs.foldl (fun a c => 10 * a + (c.toNat - 48)) 0

/-- Test for the `runCount` regex `/^\d+$/`. -/
def isCountString (s : String) : Bool :=
  s.length > 0 && s.data.all Char.isDigit

/-- `parseFloat` restricted to strings matching `/^-?\d*\.?\d+$/`, the only
strings `runScalar` feeds it; `none` when the regex does not match. -/
def parseDecimal (s : String) : Option ℚ :=
  let neg : Bool := s.startsWith "-"
  let t : String := if neg then s.drop 1 else s
  let sign : ℚ := if neg then -1 else 1
  match t.splitOn "." with
  | [a] =>
      if a.length > 0 && a.data.all Char.isDigit then
        some (sign * (digitsToNat a.data : ℚ))
      else none
  | [a, b] =>
      if a.data.all Char.isDigit && (b.length > 0 && b.data.all Char.isDigit) then
        some (sign * ((digitsToNat a.data : ℚ) + (digitsToNat b.data : ℚ) / (10 : ℚ) ^ b.length))
      else none
  | _ => none

/-- lib/snowflake.ts `runCount`: first column of the first row, accepted when a
(non-NaN) number or an all-digits string; anything else — including an empty
row set — yields `null`. -/
def runCount (rows : List (List JsVal)) : Option ℚ :=
  match rows with
  | [] => none
  | row :: _ =>
    match row with
    | [] => none
    | v :: _ =>
      match v with
      | .num q => some q
      | .str s => if isCountString s then some (digitsToNat s.data : ℚ) else none
      | _ => none

/-- lib/snowflake.ts `runScalar`: like `runCount` but `null`/`undefined`
columns are rejected first and decimal strings are accepted via `parseFloat`. -/
def runScalar (rows : List (List JsVal)) : Option ℚ :=
  match rows with
  | [] => none
  | row :: _ =>
    match row with
    | [] => none
    | v :: _ =>
      match v with
      | .jsNull => none
      | .undef => none
      | .num q => some q
      | .str s => parseDecimal s
      | .other => none

/-!
## Query Catalog (lib/constants.ts lines 73–189)

The module-level environment read (`EXCLUDE_TEST_USERS`) is passed in as the
boolean `excl`; `EXCL_CP`/`EXCL_PLAN` are the exclusion fragments it selects.
Optional JS string parameters become `Option String`; JS truthiness of a
string (`from && to`) is "present and non-empty" (`truthy`).
-/

/-- lib/constants.ts `fd`: `(f || '').slice(0, 10)`. -/
def fd (f : String) : String := f.take 10

/-- JS truthiness of an optional string: present and non-empty. -/
def truthy (o : Option String) : Bool :=
  match o with
  | some s => !s.isEmpty
  | none => false

/-- The string actually interpolated for an optional parameter (builders only
interpolate in the branch where it is present). -/
def strOf (o : Option String) : String := o.getD ""

def EXCL_CP (excl : Bool) : String :=
  if excl then
    " AND ID NOT IN (SELECT ID FROM CDC_CONSUMER_PROFILE_PRODUCTION.PUBLIC.CONSUMER_PROFILE WHERE LOWER(EMAIL) LIKE '%stitch.money%')"
  else ""

def EXCL_PLAN (excl : Bool) : String :=
  if excl then
    " AND CONSUMER_PROFILE_ID NOT IN (SELECT ID FROM CDC_CONSUMER_PROFILE_PRODUCTION.PUBLIC.CONSUMER_PROFILE WHERE LOWER(EMAIL) LIKE '%stitch.money%')"
  else ""

/-- `EXCL_PLAN.replace('CONSUMER_PROFILE_ID', 'ip.CONSUMER_PROFILE_ID')`: JS
`String.replace` with a string pattern rewrites only the first occurrence,
which is the one directly after `AND`. -/
def EXCL_PLAN_IP (excl : Bool) : String :=
  if excl then
    " AND ip.CONSUMER_PROFILE_ID NOT IN (SELECT ID FROM CDC_CONSUMER_PROFILE_PRODUCTION.PUBLIC.CONSUMER_PROFILE WHERE LOWER(EMAIL) LIKE '%stitch.money%')"
  else ""

def appliedCountSql (excl : Bool) (f t : Option String) : String :=
  if truthy f && truthy t then
    "SELECT COUNT(*) AS n FROM CDC_CONSUMER_PROFILE_PRODUCTION.PUBLIC.CONSUMER_PROFILE WHERE DATE(CREATED_AT) >= '"
      ++ fd (strOf f) ++ "' AND DATE(CREATED_AT) <= '" ++ fd (strOf t) ++ "'" ++ EXCL_CP excl
  else
    "SELECT COUNT(*) AS n FROM CDC_CONSUMER_PROFILE_PRODUCTION.PUBLIC.CONSUMER_PROFILE WHERE 1=1" ++ EXCL_CP excl

def approvedCountSql (excl : Bool) (f t : Option String) : String :=
  if truthy f && truthy t then
    "SELECT COUNT(*) AS n FROM CDC_CONSUMER_PROFILE_PRODUCTION.PUBLIC.CONSUMER_PROFILE WHERE UPPER(TRIM(CREDIT_CHECK_STATUS)) != 'REJECTED' AND DATE(CREATED_AT) >= '"
      ++ fd (strOf f) ++ "' AND DATE(CREATED_AT) <= '" ++ fd (strOf t) ++ "'" ++ EXCL_CP excl
  else
    "SELECT COUNT(*) AS n FROM CDC_CONSUMER_PROFILE_PRODUCTION.PUBLIC.CONSUMER_PROFILE WHERE UPPER(TRIM(CREDIT_CHECK_STATUS)) != 'REJECTED'" ++ EXCL_CP excl

def kycVerifiedCountSql (excl : Bool) (f t : Option String) : String :=
  if truthy f && truthy t then
    "SELECT COUNT(*) AS n FROM CDC_CONSUMER_PROFILE_PRODUCTION.PUBLIC.CONSUMER_PROFILE WHERE UPPER(TRIM(kyc_status)) IN ('VERIFIED', 'COMPLETE', 'SUCCESS') AND DATE(CREATED_AT) >= '"
      ++ fd (strOf f) ++ "' AND DATE(CREATED_AT) <= '" ++ fd (strOf t) ++ "'" ++ EXCL_CP excl
  else
    "SELECT COUNT(*) AS n FROM CDC_CONSUMER_PROFILE_PRODUCTION.PUBLIC.CONSUMER_PROFILE WHERE UPPER(TRIM(kyc_status)) IN ('VERIFIED', 'COMPLETE', 'SUCCESS')" ++ EXCL_CP excl

def planCreationSql (excl : Bool) (f t : Option String) : String :=
  if truthy f && truthy t then
    "SELECT COUNT(*) AS n FROM (SELECT DISTINCT ip.CONSUMER_PROFILE_ID FROM CDC_BNPL_PRODUCTION.PUBLIC.COLLECTION_ATTEMPT ca INNER JOIN CDC_BNPL_PRODUCTION.PUBLIC.COLLECTION_ATTEMPT_INSTALMENT_LINK cal ON cal.COLLECTION_ATTEMPT_ID = ca.ID INNER JOIN CDC_BNPL_PRODUCTION.PUBLIC.INSTALMENT i ON i.ID = cal.INSTALMENT_ID INNER JOIN CDC_BNPL_PRODUCTION.PUBLIC.INSTALMENT_PLAN ip ON ip.ID = i.INSTALMENT_PLAN_ID WHERE UPPER(TRIM(ca.TYPE)) = 'INITIAL' AND DATE(COALESCE(ca.EXECUTED_AT, ca.CREATED_AT)) >= '"
      ++ fd (strOf f) ++ "' AND DATE(COALESCE(ca.EXECUTED_AT, ca.CREATED_AT)) <= '" ++ fd (strOf t) ++ "'"
      ++ EXCL_PLAN excl ++ ") t"
  else
    "SELECT COUNT(*) AS n FROM (SELECT DISTINCT ip.CONSUMER_PROFILE_ID FROM CDC_BNPL_PRODUCTION.PUBLIC.COLLECTION_ATTEMPT ca INNER JOIN CDC_BNPL_PRODUCTION.PUBLIC.COLLECTION_ATTEMPT_INSTALMENT_LINK cal ON cal.COLLECTION_ATTEMPT_ID = ca.ID INNER JOIN CDC_BNPL_PRODUCTION.PUBLIC.INSTALMENT i ON i.ID = cal.INSTALMENT_ID INNER JOIN CDC_BNPL_PRODUCTION.PUBLIC.INSTALMENT_PLAN ip ON ip.ID = i.INSTALMENT_PLAN_ID WHERE UPPER(TRIM(ca.TYPE)) = 'INITIAL'"
      ++ EXCL_PLAN excl ++ ") t"

def initialCollectionSql (excl : Bool) (f t : Option String) : String :=
  if truthy f && truthy t then
    "SELECT COUNT(*) AS n FROM (SELECT DISTINCT ip.CONSUMER_PROFILE_ID FROM CDC_BNPL_PRODUCTION.PUBLIC.COLLECTION_ATTEMPT ca INNER JOIN CDC_BNPL_PRODUCTION.PUBLIC.COLLECTION_ATTEMPT_INSTALMENT_LINK cal ON cal.COLLECTION_ATTEMPT_ID = ca.ID INNER JOIN CDC_BNPL_PRODUCTION.PUBLIC.INSTALMENT i ON i.ID = cal.INSTALMENT_ID INNER JOIN CDC_BNPL_PRODUCTION.PUBLIC.INSTALMENT_PLAN ip ON ip.ID = i.INSTALMENT_PLAN_ID WHERE UPPER(TRIM(ca.TYPE)) = 'INITIAL' AND UPPER(TRIM(ca.STATUS)) = 'COMPLETED' AND DATE(COALESCE(ca.EXECUTED_AT, ca.CREATED_AT)) >= '"
      ++ fd (strOf f) ++ "' AND DATE(COALESCE(ca.EXECUTED_AT, ca.CREATED_AT)) <= '" ++ fd (strOf t) ++ "'"
      ++ EXCL_PLAN excl ++ ") t"
  else
    "SELECT COUNT(*) AS n FROM (SELECT DISTINCT ip.CONSUMER_PROFILE_ID FROM CDC_BNPL_PRODUCTION.PUBLIC.COLLECTION_ATTEMPT ca INNER JOIN CDC_BNPL_PRODUCTION.PUBLIC.COLLECTION_ATTEMPT_INSTALMENT_LINK cal ON cal.COLLECTION_ATTEMPT_ID = ca.ID INNER JOIN CDC_BNPL_PRODUCTION.PUBLIC.INSTALMENT i ON i.ID = cal.INSTALMENT_ID INNER JOIN CDC_BNPL_PRODUCTION.PUBLIC.INSTALMENT_PLAN ip ON ip.ID = i.INSTALMENT_PLAN_ID WHERE UPPER(TRIM(ca.TYPE)) = 'INITIAL' AND UPPER(TRIM(ca.STATUS)) = 'COMPLETED'"
      ++ EXCL_PLAN excl ++ ") t"

def consumersWithPlanSql (excl : Bool) (f t : Option String) : String :=
  if truthy f && truthy t then
    "SELECT COUNT(*) AS n FROM (SELECT DISTINCT CONSUMER_PROFILE_ID FROM CDC_BNPL_PRODUCTION.PUBLIC.INSTALMENT_PLAN WHERE DATE(CREATED_AT) >= '"
      ++ fd (strOf f) ++ "' AND DATE(CREATED_AT) <= '" ++ fd (strOf t) ++ "'" ++ EXCL_PLAN excl ++ ") t"
  else
    "SELECT COUNT(*) AS n FROM (SELECT DISTINCT CONSUMER_PROFILE_ID FROM CDC_BNPL_PRODUCTION.PUBLIC.INSTALMENT_PLAN WHERE 1=1" ++ EXCL_PLAN excl ++ ") t"

def loanBookSettledSql (excl : Bool) (f t : Option String) : String :=
  if truthy f && truthy t then
    "SELECT COALESCE(SUM(COALESCE(ip.QUANTITY, ip.VALUE, ip.AMOUNT, ip.TOTAL_AMOUNT, 0)), 0) AS total FROM CDC_BNPL_PRODUCTION.PUBLIC.INSTALMENT_PLAN ip WHERE DATE(ip.CREATED_AT) >= '"
      ++ fd (strOf f) ++ "' AND DATE(ip.CREATED_AT) <= '" ++ fd (strOf t) ++ "'" ++ EXCL_PLAN excl
  else
    "SELECT COALESCE(SUM(COALESCE(ip.QUANTITY, ip.VALUE, ip.AMOUNT, ip.TOTAL_AMOUNT, 0)), 0) AS total FROM CDC_BNPL_PRODUCTION.PUBLIC.INSTALMENT_PLAN ip WHERE 1=1" ++ EXCL_PLAN excl

/-- The `base` template literal of `loanBookCollectedSql`. -/
def loanBookCollectedBase : String :=
  "SELECT COALESCE(SUM(COALESCE(i.QUANTITY, i.AMOUNT, 0)), 0) AS total FROM CDC_BNPL_PRODUCTION.PUBLIC.INSTALMENT i INNER JOIN CDC_BNPL_PRODUCTION.PUBLIC.INSTALMENT_PLAN ip ON ip.ID = i.INSTALMENT_PLAN_ID WHERE EXISTS (SELECT 1 FROM CDC_BNPL_PRODUCTION.PUBLIC.COLLECTION_ATTEMPT_INSTALMENT_LINK cail INNER JOIN CDC_BNPL_PRODUCTION.PUBLIC.COLLECTION_ATTEMPT ca ON ca.ID = cail.COLLECTION_ATTEMPT_ID WHERE cail.INSTALMENT_ID = i.ID AND UPPER(TRIM(ca.STATUS)) = 'COMPLETED')"

def loanBookCollectedSql (excl : Bool) (f t : Option String) : String :=
  if truthy f && truthy t then
    loanBookCollectedBase ++ " AND DATE(i.CREATED_AT) >= '" ++ fd (strOf f)
      ++ "' AND DATE(i.CREATED_AT) <= '" ++ fd (strOf t) ++ "'" ++ EXCL_PLAN_IP excl
  else
    loanBookCollectedBase ++ EXCL_PLAN_IP excl

def merchantBreakdownWhere (excl : Bool) (f t : Option String) : String :=
  if truthy f && truthy t then
    "WHERE (UPPER(TRIM(ip.STATUS)) = 'ACTIVE' OR UPPER(TRIM(ip.STATUS)) = 'COMPLETED') AND DATE(ip.CREATED_AT) >= '"
      ++ fd (strOf f) ++ "' AND DATE(ip.CREATED_AT) <= '" ++ fd (strOf t) ++ "'" ++ EXCL_PLAN excl
  else
    "WHERE (UPPER(TRIM(ip.STATUS)) = 'ACTIVE' OR UPPER(TRIM(ip.STATUS)) = 'COMPLETED')" ++ EXCL_PLAN excl

/-- The trimmed template literal of `merchantBreakdownSql` (the source trims a
leading and a trailing newline). -/
def merchantBreakdownSql (excl : Bool) (f t : Option String) : String :=
  "SELECT COALESCE(ip.CLIENT_NAME, '(blank)') AS merchant,\n       COUNT(*) AS plan_count,\n       COALESCE(SUM(COALESCE(ip.QUANTITY, ip.VALUE, ip.AMOUNT, ip.TOTAL_AMOUNT, 0)), 0) AS total_plan_amount\nFROM CDC_BNPL_PRODUCTION.PUBLIC.INSTALMENT_PLAN ip\n"
    ++ merchantBreakdownWhere excl f t
    ++ "\nORDER BY total_plan_amount DESC\nLIMIT 50"

/-!
Substring detection used to state "the generated SQL contains a date-range
predicate": every date-range predicate the builders emit (and nothing else in
them) uses the comparator text `DATE(`.
-/

def matchesAt : List Char → List Char → Bool
  | [], _ => true
  | _ :: _, [] => false
  | p :: ps, c :: cs => p == c && matchesAt ps cs

def hasSub (pat : List Char) : List Char → Bool
  | [] => pat.isEmpty
  | c :: cs => matchesAt pat (c :: cs) || hasSub pat cs

def hasDatePredicate (s : String) : Bool :=
  hasSub "DATE(".data s.data

theorem matchesAt_append {pat l : List Char} (b : List Char) (h : matchesAt pat l = true) :
    matchesAt pat (l ++ b) = true := by
  induction pat generalizing l with
  | nil => rfl
  | cons p ps ih =>
    cases l with
    | nil => simp [matchesAt] at h
    | cons c cs =>
      simp only [matchesAt, Bool.and_eq_true] at h ⊢
      exact ⟨h.1, ih h.2⟩

theorem hasSub_nil_pat (l : List Char) : hasSub [] l = true := by
  cases l with
  | nil => rfl
  | cons c cs => simp [hasSub, matchesAt]

theorem hasSub_append_left {pat a : List Char} (b : List Char) (h : hasSub pat a = true) :
    hasSub pat (a ++ b) = true := by
  induction a with
  | nil =>
    simp only [hasSub, List.isEmpty_iff] at h
    subst h
    simpa using hasSub_nil_pat b
  | cons c cs ih =>
    simp only [hasSub, Bool.or_eq_true] at h
    rcases h with h | h
    · simp only [List.cons_append, hasSub, Bool.or_eq_true]
      exact Or.inl (matchesAt_append b h)
    · simp only [List.cons_append, hasSub, Bool.or_eq_true]
      exact Or.inr (ih h)

theorem hasSub_append_right {pat : List Char} (a : List Char) {b : List Char}
    (h : hasSub pat b = true) : hasSub pat (a ++ b) = true := by
  induction a with
  | nil => simpa using h
  | cons c cs ih =>
    simp only [List.cons_append, hasSub, Bool.or_eq_true]
    exact Or.inr ih

theorem hasDate_of_head (a b : String) (h : hasDatePredicate a = true) :
    hasDatePredicate (a ++ b) = true := by
  unfold hasDatePredicate at h ⊢
  rw [String.data_append]
  exact hasSub_append_left _ h

theorem hasDate_of_tail (a b : String) (h : hasDatePredicate b = true) :
    hasDatePredicate (a ++ b) = true := by
  unfold hasDatePredicate at h ⊢
  rw [String.data_append]
  exact hasSub_append_right _ h

/-!
## Aggregator data model (lib/constants.ts lines 191–348)

`BnplPayload` mirrors the interface of the same name; `from`/`to` are named
`dateFrom`/`dateTo` (`from` is a Lean keyword).  Every JS number is a `ℚ`,
every nullable field an `Option`.
-/

structure MerchantRow where
  merchant : String
  plan_count : ℚ
  total_plan_amount : ℚ
deriving DecidableEq

structure LoanBook where
  credit_allocated : Option ℚ
  operations_settled : Option ℚ
  operations_collected : Option ℚ
  total_settled : Option ℚ
  total_collected : Option ℚ
deriving DecidableEq

structure MerchantBlock where
  top3_volume_pct : Option ℚ
  n_merchants : Option ℚ
  by_merchant : List MerchantRow
deriving DecidableEq

structure BnplPayload where
  dateFrom : Option String
  dateTo : Option String
  refreshed_at : String
  applications : Option ℚ
  approval_rate_pct : Option ℚ
  n_applied : Option ℚ
  n_kyc_completed : Option ℚ
  n_credit_check_completed : Option ℚ
  n_plan_creation : Option ℚ
  n_initial_collection : Option ℚ
  n_consumers_with_plan : Option ℚ
  n_consumers_with_plan_all : Option ℚ
  n_overdue : Option ℚ
  loan_book : Option LoanBook
  total_plan_amount : Option ℚ
  first_attempt_pct : Option ℚ
  default_rate_pct : Option ℚ
  penalty_ratio_pct : Option ℚ
  merchant : MerchantBlock
  error : Option String
deriving DecidableEq

/-- Lines 324–326: `approval_rate_pct` is set only when both counts are
non-null and the denominator is positive. -/
def approvalRate (ccc applied : Option ℚ) : Option ℚ :=
  match ccc, applied with
  | some b, some a => if 0 < a then some ((mathRound (100 * b / a * 10) : ℚ) / 10) else none
  | _, _ => none

/-- Line 337: `byMerchant.reduce((s, r) => s + r.total_plan_amount, 0)`. -/
def totalVolume (rows : List MerchantRow) : ℚ :=
  rows.foldl (fun s r => s + r.total_plan_amount) 0

/-- Line 338: same reduction over `byMerchant.slice(0, 3)`. -/
def top3Volume (rows : List MerchantRow) : ℚ :=
  (rows.take 3).foldl (fun s r => s + r.total_plan_amount) 0

/-- Line 340: `totalVol > 0 ? Math.round((100 * top3Vol) / totalVol) : null`. -/
def top3Share (rows : List MerchantRow) : Option ℚ :=
  if 0 < totalVolume rows then
    some (mathRound (100 * top3Volume rows / totalVolume rows) : ℚ)
  else none

/-- The thirteen partial results gathered by the `Promise.all` fan-in of
`loadBnplData` (lines 285–313), in source order.  Each query runs through the
bounded executor, so each result is independently `some` or `none`; the
merchant breakdown result is a row list. -/
structure QueryResults where
  n_applied : Option ℚ
  n_credit_check_completed : Option ℚ
  n_kyc_completed : Option ℚ
  n_plan_creation : Option ℚ
  n_initial_collection : Option ℚ
  n_consumers_with_plan : Option ℚ
  total_settled : Option ℚ
  total_collected : Option ℚ
  total_plan_amount : Option ℚ
  merchantRows : Option (List MerchantRow)
  n_consumers_with_plan_all : Option ℚ
  n_overdue : Option ℚ
  credit_allocated : Option ℚ
deriving DecidableEq

/-- lib/constants.ts `loadBnplData`, success path of the `try` (lines
315–343): assembling the payload from the gathered partial results.  The
`catch` branch is unreachable once the results exist, because every query is
wrapped in `withTimeoutNull` and never rejects; `error` is therefore `none`
here.  `dateFrom`/`dateTo` carry the `slice(0, 10)` of lines 255–256. -/
def loadBnplData (fromDate toDate : Option String) (now : String)
    (r : QueryResults) : BnplPayload :=
  let byMerchant : List MerchantRow := r.merchantRows.getD []
  { dateFrom := fromDate.map (fun s => s.take 10)
    dateTo := toDate.map (fun s => s.take 10)
    refreshed_at := now
    applications := r.n_initial_collection
    approval_rate_pct := approvalRate r.n_credit_check_completed r.n_applied
    n_applied := r.n_applied
    n_kyc_completed := r.n_kyc_completed
    n_credit_check_completed := r.n_credit_check_completed
    n_plan_creation := r.n_plan_creation
    n_initial_collection := r.n_initial_collection
    n_consumers_with_plan := r.n_consumers_with_plan
    n_consumers_with_plan_all := r.n_consumers_with_plan_all
    n_overdue := r.n_overdue
    loan_book := some
      { credit_allocated := r.credit_allocated
        operations_settled := r.total_settled
        operations_collected := r.total_collected
        total_settled := r.total_settled
        total_collected := r.total_collected }
    total_plan_amount := r.total_plan_amount
    first_attempt_pct := none
    default_rate_pct := none
    penalty_ratio_pct := none
    merchant :=
      { top3_volume_pct := top3Share byMerchant
        n_merchants := some (byMerchant.length : ℚ)
        by_merchant := byMerchant }
    error := none }

/-- Index of one of the thirteen queries of the batch, in source order. -/
inductive QueryIdx where
  | qApplied
  | qCreditCheck
  | qKyc
  | qPlanCreation
  | qInitialCollection
  | qConsumersWithPlan
  | qTotalSettled
  | qTotalCollected
  | qTotalPlanAmount
  | qMerchantRows
  | qConsumersWithPlanAll
  | qOverdue
  | qCreditAllocated
deriving DecidableEq

/-- Fail (or time out) exactly one query of the batch: its `withTimeoutNull`
wrapper delivers `null`. -/
def setUnknown (i : QueryIdx) (r : QueryResults) : QueryResults :=
  match i with
  | .qApplied => { r with n_applied := none }
  | .qCreditCheck => { r with n_credit_check_completed := none }
  | .qKyc => { r with n_kyc_completed := none }
  | .qPlanCreation => { r with n_plan_creation := none }
  | .qInitialCollection => { r with n_initial_collection := none }
  | .qConsumersWithPlan => { r with n_consumers_with_plan := none }
  | .qTotalSettled => { r with total_settled := none }
  | .qTotalCollected => { r with total_collected := none }
  | .qTotalPlanAmount => { r with total_plan_amount := none }
  | .qMerchantRows => { r with merchantRows := none }
  | .qConsumersWithPlanAll => { r with n_consumers_with_plan_all := none }
  | .qOverdue => { r with n_overdue := none }
  | .qCreditAllocated => { r with credit_allocated := none }

def allPresent (r : QueryResults) : Prop :=
  r.n_applied.isSome = true ∧ r.n_credit_check_completed.isSome = true ∧
  r.n_kyc_completed.isSome = true ∧ r.n_plan_creation.isSome = true ∧
  r.n_initial_collection.isSome = true ∧ r.n_consumers_with_plan.isSome = true ∧
  r.total_settled.isSome = true ∧ r.total_collected.isSome = true ∧
  r.total_plan_amount.isSome = true ∧ r.merchantRows.isSome = true ∧
  r.n_consumers_with_plan_all.isSome = true ∧ r.n_overdue.isSome = true ∧
  r.credit_allocated.isSome = true

/-- Read a loan-book sub-field through the optional `loan_book` block. -/
def lbGet (g : LoanBook → Option ℚ) (p : BnplPayload) : Option ℚ :=
  p.loan_book.bind g

/-- The payload fields fed by query `j` are equal in `p` and `p'`, and present
in `p'`. -/
def primaryAgrees (j : QueryIdx) (p p' : BnplPayload) : Prop :=
  match j with
  | .qApplied => p'.n_applied = p.n_applied ∧ p'.n_applied.isSome = true
  | .qCreditCheck =>
      p'.n_credit_check_completed = p.n_credit_check_completed ∧
      p'.n_credit_check_completed.isSome = true
  | .qKyc => p'.n_kyc_completed = p.n_kyc_completed ∧ p'.n_kyc_completed.isSome = true
  | .qPlanCreation => p'.n_plan_creation = p.n_plan_creation ∧ p'.n_plan_creation.isSome = true
  | .qInitialCollection =>
      p'.n_initial_collection = p.n_initial_collection ∧
      p'.applications = p.applications ∧ p'.n_initial_collection.isSome = true
  | .qConsumersWithPlan =>
      p'.n_consumers_with_plan = p.n_consumers_with_plan ∧
      p'.n_consumers_with_plan.isSome = true
  | .qTotalSettled =>
      lbGet LoanBook.total_settled p' = lbGet LoanBook.total_settled p ∧
      lbGet LoanBook.operations_settled p' = lbGet LoanBook.operations_settled p ∧
      (lbGet LoanBook.total_settled p').isSome = true
  | .qTotalCollected =>
      lbGet LoanBook.total_collected p' = lbGet LoanBook.total_collected p ∧
      lbGet LoanBook.operations_collected p' = lbGet LoanBook.operations_collected p ∧
      (lbGet LoanBook.total_collected p').isSome = true
  | .qTotalPlanAmount =>
      p'.total_plan_amount = p.total_plan_amount ∧ p'.total_plan_amount.isSome = true
  | .qMerchantRows => p'.merchant = p.merchant
  | .qConsumersWithPlanAll =>
      p'.n_consumers_with_plan_all = p.n_consumers_with_plan_all ∧
      p'.n_consumers_with_plan_all.isSome = true
  | .qOverdue => p'.n_overdue = p.n_overdue ∧ p'.n_overdue.isSome = true
  | .qCreditAllocated =>
      lbGet LoanBook.credit_allocated p' = lbGet LoanBook.credit_allocated p ∧
      (lbGet LoanBook.credit_allocated p').isSome = true

/-- How a failed query `i` surfaces in the payload.  For the twelve numeric
queries the corresponding field is `null`; for the merchant breakdown the
code substitutes the empty breakdown: `by_merchant = []`,
`top3_volume_pct = null`, but `n_merchants = 0` (not `null`). -/
def unknownAt (i : QueryIdx) (p' : BnplPayload) : Prop :=
  match i with
  | .qApplied => p'.n_applied = none
  | .qCreditCheck => p'.n_credit_check_completed = none
  | .qKyc => p'.n_kyc_completed = none
  | .qPlanCreation => p'.n_plan_creation = none
  | .qInitialCollection => p'.n_initial_collection = none ∧ p'.applications = none
  | .qConsumersWithPlan => p'.n_consumers_with_plan = none
  | .qTotalSettled =>
      lbGet LoanBook.total_settled p' = none ∧ lbGet LoanBook.operations_settled p' = none
  | .qTotalCollected =>
      lbGet LoanBook.total_collected p' = none ∧ lbGet LoanBook.operations_collected p' = none
  | .qTotalPlanAmount => p'.total_plan_amount = none
  | .qMerchantRows =>
      p'.merchant.by_merchant = [] ∧ p'.merchant.top3_volume_pct = none ∧
      p'.merchant.n_merchants = some 0
  | .qConsumersWithPlanAll => p'.n_consumers_with_plan_all = none
  | .qOverdue => p'.n_overdue = none
  | .qCreditAllocated => lbGet LoanBook.credit_allocated p' = none

/-!
## Public entry point (app/api/bnpl/route.ts lines 52–98)

`GET` races the whole aggregation against an outer 55 s timer; on any
rejection — session acquisition failure, or the outer timeout whose message
is the fixed string below — it answers `emptyPayload` with HTTP 500.  The
overall settling of `withTimeout(withConnection(...))` is reified as an
`Except`: `ok` with the loaded payload, or `error` with the rejection's
message string.  The handler itself is a total function of that outcome, so
it never re-raises.
-/

def emptyPayload (f t : Option String) (now msg : String) : BnplPayload :=
  { dateFrom := f
    dateTo := t
    refreshed_at := now
    applications := none
    approval_rate_pct := none
    n_applied := none
    n_kyc_completed := none
    n_credit_check_completed := none
    n_plan_creation := none
    n_initial_collection := none
    n_consumers_with_plan := none
    n_consumers_with_plan_all := none
    n_overdue := none
    loan_book := none
    total_plan_amount := none
    first_attempt_pct := none
    default_rate_pct := none
    penalty_ratio_pct := none
    merchant := { top3_volume_pct := none, n_merchants := none, by_merchant := [] }
    error := some msg }

def GETbnpl (f t : Option String) (now : String) (outcome : Except String BnplPayload) :
    BnplPayload × ℕ :=
  match outcome with
  | .ok payload => (payload, 200)
  | .error msg => (emptyPayload f t now msg, 500)

/-!
## Funnel drop-offs (app/page.tsx lines 152–174)

The page coalesces each funnel count to `0` when `null` (`?? 0`), computes
adjacent drop-off counts and percentages, stably sorts the four labelled
pairs by percentage descending (`[...drops].sort((a, b) => b.pct - a.pct)`),
and reports the head unless every percentage is zero.  The JS stable sort is
modelled by `List.insertionSort` with the same descending comparison.
-/

/-- `d?.field ?? 0`. -/
def funnelCount (o : Option ℚ) : ℚ := o.getD 0

/-- Lines 157–160: `Math.max(0, prev - next)`. -/
def dropCount (prev next : ℚ) : ℚ := max 0 (prev - next)

/-- Lines 161–164: `prev ? Math.round((1000 * drop) / prev) / 10 : 0` (JS
number truthiness: any non-zero value takes the first branch). -/
def pctDrop (prev drop : ℚ) : ℚ :=
  if prev = 0 then 0 else (mathRound (1000 * drop / prev) : ℚ) / 10

/-- The formula the specification writes for the drop-off percentage,
`round(1000 * dropCount / countPrev, 1) / 10`, with `round(x, 1)` the usual
one-decimal rounding `round(10 x) / 10`. -/
def specDropFormula (prev drop : ℚ) : ℚ :=
  (mathRound (1000 * drop / prev * 10) : ℚ) / 10 / 10

structure DropItem where
  label : String
  pct : ℚ
deriving DecidableEq

/-- Lines 152–171: the four labelled adjacent-stage drop-off percentages. -/
def drops (nApplied nKyc nCredit nPlan nInitial : Option ℚ) : List DropItem :=
  let a := funnelCount nApplied
  let k := funnelCount nKyc
  let c := funnelCount nCredit
  let p := funnelCount nPlan
  let i := funnelCount nInitial
  [ { label := "Signed up → KYC", pct := pctDrop a (dropCount a k) },
    { label := "KYC → Credit check", pct := pctDrop k (dropCount k c) },
    { label := "Credit check → Plan", pct := pctDrop c (dropCount c p) },
    { label := "Plan → Initial collection", pct := pctDrop p (dropCount p i) } ]

def sortedDrops (ds : List DropItem) : List DropItem :=
  List.insertionSort (fun x y => y.pct ≤ x.pct) ds

/-- Lines 172–174: `'—'` (here `none`) when every percentage is zero or the
list is empty, otherwise the head of the descending-sorted list. -/
def largestDrop (ds : List DropItem) : Option DropItem :=
  if (sortedDrops ds).all (fun x => x.pct == 0) then none else (sortedDrops ds).head?

/-!
## Claim theorems
-/

/-- C3: the Bounded Executor `withTimeoutNull` is total and never raises: it
resolves to the operation's value when the operation fulfills no later than
the timer, and to `null` (unknown) when the operation rejects, when the timer
wins the race, and when the operation never settles at all.  Totality is the
totality of the Lean function itself. -/
theorem withTimeoutNull_total_spec (T : Type) (ms tm : ℕ) (v : T) :
    (tm ≤ ms → withTimeoutNull (PromiseOutcome.fulfilled tm v) ms = some v)
  ∧ withTimeoutNull (PromiseOutcome.rejected (T := T) tm) ms = none
  ∧ (ms < tm → withTimeoutNull (PromiseOutcome.fulfilled tm v) ms = none)
  ∧ withTimeoutNull (PromiseOutcome.pending (T := T)) ms = none := by
  refine ⟨fun h => ?_, rfl, fun h => ?_, rfl⟩
  · simp [withTimeoutNull, h]
  · simp [withTimeoutNull, Nat.not_le.mpr h]

/-- Witness for C3 at a concrete operation and the loader's actual budget. -/
theorem withTimeoutNull_total_spec_witness :
    withTimeoutNull (PromiseOutcome.fulfilled 5 (42 : ℚ)) BOUNDED_QUERY_TIMEOUT_MS = some 42
  ∧ withTimeoutNull (PromiseOutcome.fulfilled 30000 (7 : ℚ)) BOUNDED_QUERY_TIMEOUT_MS = none :=
  ⟨(withTimeoutNull_total_spec ℚ BOUNDED_QUERY_TIMEOUT_MS 5 42).1 (by decide),
   (withTimeoutNull_total_spec ℚ BOUNDED_QUERY_TIMEOUT_MS 30000 7).2.2.1 (by decide)⟩

/-- C4: the approval rate is the one-decimal rounding of `100 * countB /
countA` exactly when both counts are present and `countA > 0`, and unknown
(`none`) otherwise — in particular for a zero or unknown denominator and for
an unknown numerator it is `none`, never `0`; at countA = 100, countB = 80 it
is exactly 80. -/
theorem approval_rate_spec :
    (∀ a b : ℚ, 0 < a →
        approvalRate (some b) (some a) = some ((mathRound (100 * b / a * 10) : ℚ) / 10))
  ∧ (∀ b : Option ℚ, approvalRate b (some 0) = none)
  ∧ (∀ a b : ℚ, a ≤ 0 → approvalRate (some b) (some a) = none)
  ∧ (∀ b : Option ℚ, approvalRate b none = none)
  ∧ (∀ a : Option ℚ, approvalRate none a = none)
  ∧ approvalRate (some 80) (some 100) = some 80 := by
  refine ⟨fun a b h => by simp [approvalRate, h], fun b => ?_, fun a b h => ?_, fun b => ?_,
    fun a => ?_, ?_⟩
  · cases b <;> simp [approvalRate]
  · simp [approvalRate, not_lt.mpr h]
  · cases b <;> rfl
  · cases a <;> rfl
  · have hr : mathRound (100 * 80 / 100 * 10) = 800 := mathRound_eq (by norm_num) (by norm_num)
    simp only [approvalRate, if_pos (by norm_num : (0:ℚ) < 100), hr]
    norm_num

/-- Witness for C4: the positive branch applied at countA = 100, countB = 80. -/
theorem approval_rate_spec_witness :
    approvalRate (some 80) (some 100) = some ((mathRound (100 * 80 / 100 * 10) : ℚ) / 10) :=
  approval_rate_spec.1 100 80 (by norm_num)

/-- C5 counterexample: at countPrev = 37, dropCount = 5 the code computes
`Math.round(1000*5/37)/10 = 13.5`, while the claimed formula
`round(1000*5/37, 1)/10` equals 13.51, so the claimed equality fails at this
concrete input; moreover for countPrev = 0 the code yields 0, not unknown. -/
theorem dropoff_pct_formula_counterexample :
    pctDrop 37 (dropCount 37 32) = 27/2
  ∧ specDropFormula 37 (dropCount 37 32) = 1351/100
  ∧ (27/2 : ℚ) ≠ 1351/100
  ∧ pctDrop 0 5 = 0 := by
  have hd : dropCount 37 32 = 5 := by norm_num [dropCount]
  have h1 : mathRound (1000 * 5 / 37) = 135 := mathRound_eq (by norm_num) (by norm_num)
  have h2 : mathRound (1000 * 5 / 37 * 10) = 1351 := mathRound_eq (by norm_num) (by norm_num)
  refine ⟨?_, ?_, by norm_num, by simp [pctDrop]⟩
  · rw [hd]
    rw [pctDrop, if_neg (by norm_num), h1]
    norm_num
  · rw [hd]
    rw [specDropFormula, h2]
    norm_num

/-- C5 (amended): the drop-off percentage is `Math.round(1000 * dropCount /
countPrev) / 10` (integer half-up rounding, then one division by 10) when
`countPrev ≠ 0`, and `0` — not unknown — when `countPrev` is zero or unknown
(an unknown count is coalesced to 0 first); at countPrev = 37, dropCount = 5
it is exactly 13.5. -/
theorem dropoff_pct_amended :
    (∀ prev drop : ℚ, prev ≠ 0 →
        pctDrop prev drop = (mathRound (1000 * drop / prev) : ℚ) / 10)
  ∧ (∀ drop : ℚ, pctDrop 0 drop = 0)
  ∧ (∀ drop : ℚ, pctDrop (funnelCount none) drop = 0)
  ∧ pctDrop 37 5 = 27/2 := by
  have h1 : mathRound (1000 * 5 / 37) = 135 := mathRound_eq (by norm_num) (by norm_num)
  refine ⟨fun prev drop h => by rw [pctDrop, if_neg h], fun drop => by simp [pctDrop],
    fun drop => by simp [pctDrop, funnelCount], ?_⟩
  rw [pctDrop, if_neg (by norm_num), h1]
  norm_num

/-- Witness for C5 (amended) at countPrev = 37, dropCount = 5. -/
theorem dropoff_pct_amended_witness :
    pctDrop 37 5 = (mathRound (1000 * 5 / 37) : ℚ) / 10 :=
  dropoff_pct_amended.1 37 5 (by norm_num)

/-- C8: the drop-off count between adjacent funnel stages is
`max(0, countPrev - countNext)`, hence never negative, even when
`countNext > countPrev`. -/
theorem dropCount_nonneg_spec :
    (∀ prev next : ℚ, dropCount prev next = max 0 (prev - next))
  ∧ (∀ prev next : ℚ, 0 ≤ dropCount prev next)
  ∧ (∀ prev next : ℚ, prev < next → dropCount prev next = 0) :=
  ⟨fun _ _ => rfl, fun _ _ => le_max_left _ _,
   fun _ _ h => max_eq_left (by linarith)⟩

/-- Witness for C8 with an inverted pair (countNext > countPrev). -/
theorem dropCount_nonneg_spec_witness :
    0 ≤ dropCount 3 5 ∧ dropCount 3 5 = 0 :=
  ⟨dropCount_nonneg_spec.2.1 3 5, dropCount_nonneg_spec.2.2 3 5 (by norm_num)⟩

/-- C9 counterexample: a successful execution with zero rows makes `runCount`
and `runScalar` return `null` — the unknown marker — not a legitimate zero. -/
theorem runCount_zero_rows_counterexample :
    runCount [] = none ∧ runScalar [] = none ∧ (none : Option ℚ) ≠ some 0 :=
  ⟨rfl, rfl, by simp⟩

/-- C9 (amended): a zero-row result is not an error — `runCount`/`runScalar`
return normally — but they map it to `null` (unknown), not to zero; a zero
*value* in the first row, by contrast, is returned as a legitimate present 0,
and any numeric first column comes back unchanged. -/
theorem zero_rows_amended :
    runCount [] = none
  ∧ runScalar [] = none
  ∧ (∀ q : ℚ, runCount [[JsVal.num q]] = some q)
  ∧ (∀ q : ℚ, runScalar [[JsVal.num q]] = some q)
  ∧ runCount [[JsVal.num 0]] = some 0 :=
  ⟨rfl, rfl, fun _ => rfl, fun _ => rfl, rfl⟩

/-- C1: when the store is entirely unreachable — session acquisition or the
whole batch fails before results are produced, surfacing as a rejection with
message `msg` — the public `GET /api/bnpl` entry point still returns a
well-formed payload in which every metric field is `null`/unknown, with the
failure's (non-empty) message in the error field and HTTP status 500; the
handler is a total function of the outcome, so it never re-raises. -/
theorem bnpl_get_degraded_totality (f t : Option String) (now msg : String) (h : msg ≠ "") :
    ((GETbnpl f t now (Except.error msg)).1.applications = none
      ∧ (GETbnpl f t now (Except.error msg)).1.approval_rate_pct = none
      ∧ (GETbnpl f t now (Except.error msg)).1.n_applied = none
      ∧ (GETbnpl f t now (Except.error msg)).1.n_kyc_completed = none
      ∧ (GETbnpl f t now (Except.error msg)).1.n_credit_check_completed = none
      ∧ (GETbnpl f t now (Except.error msg)).1.n_plan_creation = none
      ∧ (GETbnpl f t now (Except.error msg)).1.n_initial_collection = none
      ∧ (GETbnpl f t now (Except.error msg)).1.n_consumers_with_plan = none
      ∧ (GETbnpl f t now (Except.error msg)).1.n_consumers_with_plan_all = none
      ∧ (GETbnpl f t now (Except.error msg)).1.n_overdue = none
      ∧ (GETbnpl f t now (Except.error msg)).1.loan_book = none
      ∧ (GETbnpl f t now (Except.error msg)).1.total_plan_amount = none
      ∧ (GETbnpl f t now (Except.error msg)).1.first_attempt_pct = none
      ∧ (GETbnpl f t now (Except.error msg)).1.default_rate_pct = none
      ∧ (GETbnpl f t now (Except.error msg)).1.penalty_ratio_pct = none
      ∧ (GETbnpl f t now (Except.error msg)).1.merchant
          = { top3_volume_pct := none, n_merchants := none, by_merchant := [] })
  ∧ ((GETbnpl f t now (Except.error msg)).1.error = some msg
      ∧ msg ≠ ""
      ∧ (GETbnpl f t now (Except.error msg)).2 = 500) := by
  exact ⟨⟨rfl, rfl, rfl, rfl, rfl, rfl, rfl, rfl, rfl, rfl, rfl, rfl, rfl, rfl, rfl, rfl⟩,
    ⟨rfl, h, rfl⟩⟩

/-- Witness for C1 at a concrete connection-failure message. -/
theorem bnpl_get_degraded_totality_witness :
    (GETbnpl none none "2026-01-01T00:00:00.000Z"
        (Except.error "connect ECONNREFUSED")).1.error = some "connect ECONNREFUSED"
  ∧ "connect ECONNREFUSED" ≠ ""
  ∧ (GETbnpl none none "2026-01-01T00:00:00.000Z"
        (Except.error "connect ECONNREFUSED")).2 = 500 :=
  (bnpl_get_degraded_totality none none "2026-01-01T00:00:00.000Z"
    "connect ECONNREFUSED" (by decide)).2

/-- Concrete all-present batch used by the C2 counterexample and witness. -/
def sampleResults : QueryResults :=
  { n_applied := some 1000
    n_credit_check_completed := some 720
    n_kyc_completed := some 800
    n_plan_creation := some 650
    n_initial_collection := some 600
    n_consumers_with_plan := some 400
    total_settled := some 50000
    total_collected := some 42000
    total_plan_amount := some 50000
    merchantRows := some [{ merchant := "A", plan_count := 2, total_plan_amount := 1000 }]
    n_consumers_with_plan_all := some 900
    n_overdue := some 12
    credit_allocated := some 100000 }

/-- C2 counterexample: when the one failing query is the merchant breakdown,
its result in the payload is not `null` — the code substitutes the empty
breakdown, reporting `n_merchants = 0` (a value indistinguishable from a
legitimate zero-merchant answer) instead of unknown. -/
theorem loadBnplData_merchant_failure_counterexample :
    (loadBnplData none none "t" (setUnknown QueryIdx.qMerchantRows sampleResults)).merchant.n_merchants
      = some 0
  ∧ (loadBnplData none none "t" (setUnknown QueryIdx.qMerchantRows sampleResults)).merchant.n_merchants
      ≠ none := by
  constructor
  · simp [loadBnplData, setUnknown, sampleResults]
  · simp [loadBnplData, setUnknown, sampleResults]

/-- C2 (amended): if exactly one of the thirteen queries of a batch fails or
times out, no batch-level error is reported and every other query's payload
fields are present with the values they have in the fully successful run; the
failing query itself surfaces as `null` for the twelve numeric queries, and
for the merchant-breakdown query as the empty breakdown
(`by_merchant = []`, `top3_volume_pct = null`, `n_merchants = 0`). -/
theorem loadBnplData_isolation (fr tr : Option String) (now : String) (r : QueryResults)
    (i : QueryIdx) (h : allPresent r) :
    (loadBnplData fr tr now r).error = none
  ∧ (loadBnplData fr tr now (setUnknown i r)).error = none
  ∧ unknownAt i (loadBnplData fr tr now (setUnknown i r))
  ∧ ∀ j : QueryIdx, j ≠ i →
      primaryAgrees j (loadBnplData fr tr now r) (loadBnplData fr tr now (setUnknown i r)) := by
  obtain ⟨h1, h2, h3, h4, h5, h6, h7, h8, h9, h10, h11, h12, h13⟩ := h
  refine ⟨rfl, rfl, ?_, ?_⟩
  · cases i <;> simp [unknownAt, loadBnplData, setUnknown, lbGet, top3Share, totalVolume]
  · intro j hj
    cases i <;> cases j <;>
      first
      | exact absurd rfl hj
      | simp_all [primaryAgrees, loadBnplData, setUnknown, lbGet]

/-- Witness for C2 applied to `sampleResults` with the overdue-count query
failing: the applied-count field is untouched and the overdue field is
`null`. -/
theorem loadBnplData_isolation_witness :
    primaryAgrees QueryIdx.qApplied (loadBnplData none none "t" sampleResults)
      (loadBnplData none none "t" (setUnknown QueryIdx.qOverdue sampleResults))
  ∧ unknownAt QueryIdx.qOverdue
      (loadBnplData none none "t" (setUnknown QueryIdx.qOverdue sampleResults)) := by
  have H := loadBnplData_isolation none none "t" sampleResults QueryIdx.qOverdue
    ⟨rfl, rfl, rfl, rfl, rfl, rfl, rfl, rfl, rfl, rfl, rfl, rfl, rfl⟩
  exact ⟨H.2.2.2 QueryIdx.qApplied (by decide), H.2.2.1⟩

theorem volFold (rows : List MerchantRow) (s : ℚ) :
    rows.foldl (fun acc r => acc + r.total_plan_amount) s
      = s + (rows.map MerchantRow.total_plan_amount).sum := by
  induction rows generalizing s with
  | nil => simp
  | cons r rs ih =>
    simp only [List.foldl_cons, List.map_cons, List.sum_cons, ih]
    ring

theorem totalVolume_eq (rows : List MerchantRow) :
    totalVolume rows = (rows.map MerchantRow.total_plan_amount).sum := by
  simp [totalVolume, volFold]

theorem top3Volume_eq (rows : List MerchantRow) :
    top3Volume rows = ((rows.take 3).map MerchantRow.total_plan_amount).sum := by
  simp [top3Volume, volFold]

theorem mathRound_zero : mathRound 0 = 0 := mathRound_eq (by norm_num) (by norm_num)

theorem mathRound_hundred : mathRound 100 = 100 := mathRound_eq (by norm_num) (by norm_num)

/-- C7 counterexample: a non-empty breakdown whose volumes are all zero has
`top3Share = null`, so the claimed unconditional bound `top3Share ∈ [0, 100]`
and the claimed `top3Share = 100` for a single-merchant breakdown both fail
at this input. -/
theorem top3Share_zero_volume_counterexample :
    top3Share [{ merchant := "A", plan_count := 1, total_plan_amount := 0 }] = none
  ∧ (none : Option ℚ) ≠ some 100 := by
  constructor
  · rw [top3Share, if_neg]
    rw [totalVolume_eq]
    norm_num
  · simp

/-- C7 (amended): `top3Share` is `round(100 * sum(volume of first 3 rows) /
sum(all volumes))` when the total volume is positive and `null` otherwise;
for every breakdown with non-negative volumes *and positive total volume* the
value lies in [0, 100]; a single-merchant breakdown with positive volume
yields exactly 100; and the rows with volumes 1000, 600, 400, 100 yield
exactly 95. -/
theorem top3Share_amended :
    (∀ rows : List MerchantRow, 0 < totalVolume rows →
        top3Share rows = some (mathRound (100 * top3Volume rows / totalVolume rows) : ℚ))
  ∧ (∀ rows : List MerchantRow, totalVolume rows ≤ 0 → top3Share rows = none)
  ∧ (∀ rows : List MerchantRow, rows ≠ [] → (∀ r ∈ rows, 0 ≤ r.total_plan_amount) →
        0 < totalVolume rows →
        ∃ v : ℚ, top3Share rows = some v ∧ 0 ≤ v ∧ v ≤ 100)
  ∧ (∀ row : MerchantRow, 0 < row.total_plan_amount → top3Share [row] = some 100)
  ∧ top3Share
      [{ merchant := "A", plan_count := 1, total_plan_amount := 1000 },
       { merchant := "B", plan_count := 1, total_plan_amount := 600 },
       { merchant := "C", plan_count := 1, total_plan_amount := 400 },
       { merchant := "D", plan_count := 1, total_plan_amount := 100 }] = some 95 := by
  have hpos : ∀ rows : List MerchantRow, 0 < totalVolume rows →
      top3Share rows = some (mathRound (100 * top3Volume rows / totalVolume rows) : ℚ) :=
    fun rows hp => by rw [top3Share, if_pos hp]
  refine ⟨hpos, fun rows hle => ?_, fun rows hne hnn hp => ?_, fun row hp => ?_, ?_⟩
  · rw [top3Share, if_neg (not_lt.mpr hle)]
  · -- the bound: 0 ≤ top3Volume ≤ totalVolume forces the ratio into [0, 100]
    have ht3nn : 0 ≤ top3Volume rows := by
      rw [top3Volume_eq]
      refine List.sum_nonneg ?_
      intro x hx
      obtain ⟨r, hr, rfl⟩ := List.mem_map.mp hx
      exact hnn r (List.take_subset 3 rows hr)
    have hle : top3Volume rows ≤ totalVolume rows := by
      rw [top3Volume_eq, totalVolume_eq]
      have hsplit : rows.map MerchantRow.total_plan_amount
          = (rows.take 3).map MerchantRow.total_plan_amount
            ++ (rows.drop 3).map MerchantRow.total_plan_amount := by
        rw [← List.map_append, List.take_append_drop]
      rw [hsplit, List.sum_append]
      have : 0 ≤ ((rows.drop 3).map MerchantRow.total_plan_amount).sum := by
        refine List.sum_nonneg ?_
        intro x hx
        obtain ⟨r, hr, rfl⟩ := List.mem_map.mp hx
        exact hnn r (List.drop_subset 3 rows hr)
      linarith
    have hratio0 : 0 ≤ 100 * top3Volume rows / totalVolume rows :=
      div_nonneg (by linarith) (le_of_lt hp)
    have hratio100 : 100 * top3Volume rows / totalVolume rows ≤ 100 := by
      rw [div_le_iff₀ hp]
      linarith
    refine ⟨(mathRound (100 * top3Volume rows / totalVolume rows) : ℚ), hpos rows hp, ?_, ?_⟩
    · have : mathRound 0 ≤ mathRound (100 * top3Volume rows / totalVolume rows) :=
        mathRound_mono hratio0
      rw [mathRound_zero] at this
      exact_mod_cast this
    · have : mathRound (100 * top3Volume rows / totalVolume rows) ≤ mathRound 100 :=
        mathRound_mono hratio100
      rw [mathRound_hundred] at this
      exact_mod_cast this
  · have hTv : totalVolume [row] = row.total_plan_amount := by
      rw [totalVolume_eq]; simp
    have ht3 : top3Volume [row] = row.total_plan_amount := by
      rw [top3Volume_eq]; simp
    rw [hpos [row] (by rw [hTv]; exact hp), hTv, ht3]
    rw [mul_div_assoc, div_self (ne_of_gt hp), mul_one, mathRound_hundred]
    norm_num
  · have hTv : totalVolume
        [{ merchant := "A", plan_count := 1, total_plan_amount := 1000 },
         { merchant := "B", plan_count := 1, total_plan_amount := 600 },
         { merchant := "C", plan_count := 1, total_plan_amount := 400 },
         { merchant := "D", plan_count := 1, total_plan_amount := 100 }] = 2100 := by
      rw [totalVolume_eq]; norm_num
    have ht3 : top3Volume
        [{ merchant := "A", plan_count := 1, total_plan_amount := 1000 },
         { merchant := "B", plan_count := 1, total_plan_amount := 600 },
         { merchant := "C", plan_count := 1, total_plan_amount := 400 },
         { merchant := "D", plan_count := 1, total_plan_amount := 100 }] = 2000 := by
      rw [top3Volume_eq]; norm_num
    rw [hpos _ (by rw [hTv]; norm_num), hTv, ht3]
    have : mathRound (100 * 2000 / 2100) = 95 := mathRound_eq (by norm_num) (by norm_num)
    rw [this]
    norm_num

/-- Witness for C7 (amended): the single-merchant branch at a concrete row. -/
theorem top3Share_amended_witness :
    top3Share [{ merchant := "Solo", plan_count := 3, total_plan_amount := 500 }] = some 100 :=
  top3Share_amended.2.2.2.1
    { merchant := "Solo", plan_count := 3, total_plan_amount := 500 } (by norm_num)

instance : DecidableRel (fun x y : DropItem => y.pct ≤ x.pct) :=
  fun x y => inferInstanceAs (Decidable (y.pct ≤ x.pct))

instance : IsTotal DropItem (fun x y => y.pct ≤ x.pct) :=
  ⟨fun x y => le_total y.pct x.pct⟩

instance : IsTrans DropItem (fun x y => y.pct ≤ x.pct) :=
  ⟨fun _ _ _ hxy hyz => le_trans hyz hxy⟩

theorem sortedDrops_perm (ds : List DropItem) : (sortedDrops ds).Perm ds :=
  List.perm_insertionSort _ ds

theorem sortedDrops_sorted (ds : List DropItem) :
    List.Sorted (fun x y : DropItem => y.pct ≤ x.pct) (sortedDrops ds) :=
  List.sorted_insertionSort _ ds

theorem largestDrop_eq_none_iff (ds : List DropItem) (hne : ds ≠ []) :
    largestDrop ds = none ↔ ∀ x ∈ ds, x.pct = 0 := by
  unfold largestDrop
  by_cases hall : (sortedDrops ds).all (fun x => x.pct == 0) = true
  · rw [if_pos hall]
    simp only [true_iff]
    intro x hx
    have hx' : x ∈ sortedDrops ds := ((sortedDrops_perm ds).mem_iff).mpr hx
    have := List.all_eq_true.mp hall x hx'
    exact beq_iff_eq.mp this
  · rw [if_neg hall]
    constructor
    · intro hhead
      have hlen : (sortedDrops ds).length = ds.length := (sortedDrops_perm ds).length_eq
      cases hs : sortedDrops ds with
      | nil =>
        rw [hs] at hlen
        exact absurd (List.length_eq_zero.mp hlen.symm) hne
      | cons hd tl =>
        rw [hs] at hhead
        simp at hhead
    · intro hzero
      exfalso
      apply hall
      refine List.all_eq_true.mpr ?_
      intro x hx
      exact beq_iff_eq.mpr (hzero x (((sortedDrops_perm ds).mem_iff).mp hx))

theorem largestDrop_eq_some (ds : List DropItem) (d : DropItem)
    (h : largestDrop ds = some d) : d ∈ ds ∧ ∀ x ∈ ds, x.pct ≤ d.pct := by
  unfold largestDrop at h
  by_cases hall : (sortedDrops ds).all (fun x => x.pct == 0) = true
  · rw [if_pos hall] at h
    exact absurd h (by simp)
  · rw [if_neg hall] at h
    cases hs : sortedDrops ds with
    | nil =>
      rw [hs] at h
      exact absurd h (by simp)
    | cons hd tl =>
      rw [hs] at h
      simp only [List.head?_cons, Option.some.injEq] at h
      subst h
      have hsorted := sortedDrops_sorted ds
      rw [hs] at hsorted
      constructor
      · exact ((sortedDrops_perm ds).mem_iff).mp (by rw [hs]; exact List.mem_cons_self _ _)
      · intro x hx
        have hx' : x ∈ sortedDrops ds := ((sortedDrops_perm ds).mem_iff).mpr hx
        rw [hs] at hx'
        rcases List.mem_cons.mp hx' with rfl | hmem
        · exact le_refl _
        · exact List.rel_of_sorted_cons hsorted x hmem

theorem drops_ne_nil (na nk nc np ni : Option ℚ) : drops na nk nc np ni ≠ [] := by
  simp [drops]

/-- C6: for applied = 1000, kyc = 800, creditCheck = 720, planCreation = 650,
initialCollection = 600, the four adjacent drop-off percentages are exactly
20.0, 10.0, 9.7 and 7.7, and the largest drop is the Signed-up→KYC pair at
20.0 %; in general `largestDrop` returns an adjacent-stage pair of maximal
drop-off percentage, and the no-data marker exactly when every percentage is
zero. -/
theorem largest_dropoff_spec :
    drops (some 1000) (some 800) (some 720) (some 650) (some 600)
      = [{ label := "Signed up → KYC", pct := 20 },
         { label := "KYC → Credit check", pct := 10 },
         { label := "Credit check → Plan", pct := 97/10 },
         { label := "Plan → Initial collection", pct := 77/10 }]
  ∧ largestDrop (drops (some 1000) (some 800) (some 720) (some 650) (some 600))
      = some { label := "Signed up → KYC", pct := 20 }
  ∧ (∀ na nk nc np ni : Option ℚ,
        (largestDrop (drops na nk nc np ni) = none ↔
          ∀ x ∈ drops na nk nc np ni, x.pct = 0)
      ∧ (∀ d : DropItem, largestDrop (drops na nk nc np ni) = some d →
          d ∈ drops na nk nc np ni ∧ ∀ x ∈ drops na nk nc np ni, x.pct ≤ d.pct)) := by
  have e1 : pctDrop 1000 (dropCount 1000 800) = 20 := by
    have hd : dropCount 1000 800 = 200 := by norm_num [dropCount]
    have hr : mathRound (1000 * 200 / 1000) = 200 := mathRound_eq (by norm_num) (by norm_num)
    rw [hd, pctDrop, if_neg (by norm_num), hr]
    norm_num
  have e2 : pctDrop 800 (dropCount 800 720) = 10 := by
    have hd : dropCount 800 720 = 80 := by norm_num [dropCount]
    have hr : mathRound (1000 * 80 / 800) = 100 := mathRound_eq (by norm_num) (by norm_num)
    rw [hd, pctDrop, if_neg (by norm_num), hr]
    norm_num
  have e3 : pctDrop 720 (dropCount 720 650) = 97/10 := by
    have hd : dropCount 720 650 = 70 := by norm_num [dropCount]
    have hr : mathRound (1000 * 70 / 720) = 97 := mathRound_eq (by norm_num) (by norm_num)
    rw [hd, pctDrop, if_neg (by norm_num), hr]
    norm_num
  have e4 : pctDrop 650 (dropCount 650 600) = 77/10 := by
    have hd : dropCount 650 600 = 50 := by norm_num [dropCount]
    have hr : mathRound (1000 * 50 / 650) = 77 := mathRound_eq (by norm_num) (by norm_num)
    rw [hd, pctDrop, if_neg (by norm_num), hr]
    norm_num
  have hdrops : drops (some 1000) (some 800) (some 720) (some 650) (some 600)
      = [{ label := "Signed up → KYC", pct := 20 },
         { label := "KYC → Credit check", pct := 10 },
         { label := "Credit check → Plan", pct := 97/10 },
         { label := "Plan → Initial collection", pct := 77/10 }] := by
    simp only [drops, funnelCount, Option.getD_some, e1, e2, e3, e4]
  refine ⟨hdrops, ?_, fun na nk nc np ni =>
    ⟨largestDrop_eq_none_iff _ (drops_ne_nil na nk nc np ni),
     fun d hd => largestDrop_eq_some _ d hd⟩⟩
  rw [hdrops]
  rw [largestDrop]
  rw [if_neg ?_]
  · have hsort : sortedDrops
        [{ label := "Signed up → KYC", pct := 20 },
         { label := "KYC → Credit check", pct := 10 },
         { label := "Credit check → Plan", pct := 97/10 },
         { label := "Plan → Initial collection", pct := 77/10 }]
        = [{ label := "Signed up → KYC", pct := 20 },
           { label := "KYC → Credit check", pct := 10 },
           { label := "Credit check → Plan", pct := 97/10 },
           { label := "Plan → Initial collection", pct := 77/10 }] := by
      norm_num [sortedDrops, List.insertionSort, List.orderedInsert]
    rw [hsort]
    rfl
  · norm_num [sortedDrops, List.insertionSort, List.orderedInsert]

/-- Witness for C6: with every funnel count unknown the percentages are all
zero and the no-data marker is reported. -/
theorem largest_dropoff_spec_witness :
    largestDrop (drops none none none none none) = none := by
  refine ((largest_dropoff_spec.2.2 none none none none none).1).mpr ?_
  intro x hx
  simp only [drops, funnelCount, Option.getD_none, List.mem_cons, List.mem_singleton,
    List.not_mem_nil, or_false] at hx
  have hz : pctDrop 0 (dropCount 0 0) = 0 := by simp [pctDrop]
  rcases hx with rfl | rfl | rfl | rfl <;> exact hz

set_option maxRecDepth 40000

theorem appliedCountSql_date (excl : Bool) (f t : Option String) :
    hasDatePredicate (appliedCountSql excl f t) = (truthy f && truthy t) := by
  cases hc : truthy f && truthy t with
  | false =>
    unfold appliedCountSql
    rw [hc]
    simp only [Bool.false_eq_true, if_false]
    cases excl <;> decide
  | true =>
    unfold appliedCountSql
    rw [hc]
    simp only [if_true]
    apply hasDate_of_head
    apply hasDate_of_head
    apply hasDate_of_head
    apply hasDate_of_head
    apply hasDate_of_head
    decide

theorem approvedCountSql_date (excl : Bool) (f t : Option String) :
    hasDatePredicate (approvedCountSql excl f t) = (truthy f && truthy t) := by
  cases hc : truthy f && truthy t with
  | false =>
    unfold approvedCountSql
    rw [hc]
    simp only [Bool.false_eq_true, if_false]
    cases excl <;> decide
  | true =>
    unfold approvedCountSql
    rw [hc]
    simp only [if_true]
    apply hasDate_of_head
    apply hasDate_of_head
    apply hasDate_of_head
    apply hasDate_of_head
    apply hasDate_of_head
    decide

theorem kycVerifiedCountSql_date (excl : Bool) (f t : Option String) :
    hasDatePredicate (kycVerifiedCountSql excl f t) = (truthy f && truthy t) := by
  cases hc : truthy f && truthy t with
  | false =>
    unfold kycVerifiedCountSql
    rw [hc]
    simp only [Bool.false_eq_true, if_false]
    cases excl <;> decide
  | true =>
    unfold kycVerifiedCountSql
    rw [hc]
    simp only [if_true]
    apply hasDate_of_head
    apply hasDate_of_head
    apply hasDate_of_head
    apply hasDate_of_head
    apply hasDate_of_head
    decide

theorem planCreationSql_date (excl : Bool) (f t : Option String) :
    hasDatePredicate (planCreationSql excl f t) = (truthy f && truthy t) := by
  cases hc : truthy f && truthy t with
  | false =>
    unfold planCreationSql
    rw [hc]
    simp only [Bool.false_eq_true, if_false]
    cases excl <;> decide
  | true =>
    unfold planCreationSql
    rw [hc]
    simp only [if_true]
    apply hasDate_of_head
    apply hasDate_of_head
    apply hasDate_of_head
    apply hasDate_of_head
    apply hasDate_of_head
    apply hasDate_of_head
    decide

theorem initialCollectionSql_date (excl : Bool) (f t : Option String) :
    hasDatePredicate (initialCollectionSql excl f t) = (truthy f && truthy t) := by
  cases hc : truthy f && truthy t with
  | false =>
    unfold initialCollectionSql
    rw [hc]
    simp only [Bool.false_eq_true, if_false]
    cases excl <;> decide
  | true =>
    unfold initialCollectionSql
    rw [hc]
    simp only [if_true]
    apply hasDate_of_head
    apply hasDate_of_head
    apply hasDate_of_head
    apply hasDate_of_head
    apply hasDate_of_head
    apply hasDate_of_head
    decide

theorem consumersWithPlanSql_date (excl : Bool) (f t : Option String) :
    hasDatePredicate (consumersWithPlanSql excl f t) = (truthy f && truthy t) := by
  cases hc : truthy f && truthy t with
  | false =>
    unfold consumersWithPlanSql
    rw [hc]
    simp only [Bool.false_eq_true, if_false]
    cases excl <;> decide
  | true =>
    unfold consumersWithPlanSql
    rw [hc]
    simp only [if_true]
    apply hasDate_of_head
    apply hasDate_of_head
    apply hasDate_of_head
    apply hasDate_of_head
    apply hasDate_of_head
    apply hasDate_of_head
    decide

theorem loanBookSettledSql_date (excl : Bool) (f t : Option String) :
    hasDatePredicate (loanBookSettledSql excl f t) = (truthy f && truthy t) := by
  cases hc : truthy f && truthy t with
  | false =>
    unfold loanBookSettledSql
    rw [hc]
    simp only [Bool.false_eq_true, if_false]
    cases excl <;> decide
  | true =>
    unfold loanBookSettledSql
    rw [hc]
    simp only [if_true]
    apply hasDate_of_head
    apply hasDate_of_head
    apply hasDate_of_head
    apply hasDate_of_head
    apply hasDate_of_head
    decide

theorem loanBookCollectedSql_date (excl : Bool) (f t : Option String) :
    hasDatePredicate (loanBookCollectedSql excl f t) = (truthy f && truthy t) := by
  cases hc : truthy f && truthy t with
  | false =>
    unfold loanBookCollectedSql
    rw [hc]
    simp only [Bool.false_eq_true, if_false]
    cases excl <;> decide
  | true =>
    unfold loanBookCollectedSql
    rw [hc]
    simp only [if_true]
    apply hasDate_of_head
    apply hasDate_of_head
    apply hasDate_of_head
    apply hasDate_of_head
    apply hasDate_of_head
    apply hasDate_of_tail
    decide

theorem merchantBreakdownSql_date (excl : Bool) (f t : Option String) :
    hasDatePredicate (merchantBreakdownSql excl f t) = (truthy f && truthy t) := by
  cases hc : truthy f && truthy t with
  | false =>
    unfold merchantBreakdownSql merchantBreakdownWhere
    rw [hc]
    simp only [Bool.false_eq_true, if_false]
    cases excl <;> decide
  | true =>
    unfold merchantBreakdownSql merchantBreakdownWhere
    rw [hc]
    simp only [if_true]
    apply hasDate_of_head
    apply hasDate_of_tail
    apply hasDate_of_head
    apply hasDate_of_head
    apply hasDate_of_head
    apply hasDate_of_head
    apply hasDate_of_head
    decide

/-- C10: every query builder of the catalog applies the same both-or-neither
date rule — the generated SQL contains a date-range predicate (its `DATE(`
comparator) exactly when both bounds are supplied and non-empty, and whenever
either bound is absent or empty the builder emits its unfiltered query, the
same SQL as with no bounds at all. -/
theorem sql_builders_date_rule :
    (∀ (excl : Bool) (f t : Option String),
        hasDatePredicate (appliedCountSql excl f t) = (truthy f && truthy t)
      ∧ hasDatePredicate (approvedCountSql excl f t) = (truthy f && truthy t)
      ∧ hasDatePredicate (kycVerifiedCountSql excl f t) = (truthy f && truthy t)
      ∧ hasDatePredicate (planCreationSql excl f t) = (truthy f && truthy t)
      ∧ hasDatePredicate (initialCollectionSql excl f t) = (truthy f && truthy t)
      ∧ hasDatePredicate (consumersWithPlanSql excl f t) = (truthy f && truthy t)
      ∧ hasDatePredicate (loanBookSettledSql excl f t) = (truthy f && truthy t)
      ∧ hasDatePredicate (loanBookCollectedSql excl f t) = (truthy f && truthy t)
      ∧ hasDatePredicate (merchantBreakdownSql excl f t) = (truthy f && truthy t))
  ∧ (∀ (excl : Bool) (f t : Option String), (truthy f && truthy t) = false →
        appliedCountSql excl f t = appliedCountSql excl none none
      ∧ approvedCountSql excl f t = approvedCountSql excl none none
      ∧ kycVerifiedCountSql excl f t = kycVerifiedCountSql excl none none
      ∧ planCreationSql excl f t = planCreationSql excl none none
      ∧ initialCollectionSql excl f t = initialCollectionSql excl none none
      ∧ consumersWithPlanSql excl f t = consumersWithPlanSql excl none none
      ∧ loanBookSettledSql excl f t = loanBookSettledSql excl none none
      ∧ loanBookCollectedSql excl f t = loanBookCollectedSql excl none none
      ∧ merchantBreakdownSql excl f t = merchantBreakdownSql excl none none) := by
  constructor
  · intro excl f t
    exact ⟨appliedCountSql_date excl f t, approvedCountSql_date excl f t,
      kycVerifiedCountSql_date excl f t, planCreationSql_date excl f t,
      initialCollectionSql_date excl f t, consumersWithPlanSql_date excl f t,
      loanBookSettledSql_date excl f t, loanBookCollectedSql_date excl f t,
      merchantBreakdownSql_date excl f t⟩
  · intro excl f t hc
    refine ⟨?_, ?_, ?_, ?_, ?_, ?_, ?_, ?_, ?_⟩
    · unfold appliedCountSql
      rw [hc]
      rw [if_neg Bool.false_ne_true, if_neg (by decide)]
    · unfold approvedCountSql
      rw [hc]
      rw [if_neg Bool.false_ne_true, if_neg (by decide)]
    · unfold kycVerifiedCountSql
      rw [hc]
      rw [if_neg Bool.false_ne_true, if_neg (by decide)]
    · unfold planCreationSql
      rw [hc]
      rw [if_neg Bool.false_ne_true, if_neg (by decide)]
    · unfold initialCollectionSql
      rw [hc]
      rw [if_neg Bool.false_ne_true, if_neg (by decide)]
    · unfold consumersWithPlanSql
      rw [hc]
      rw [if_neg Bool.false_ne_true, if_neg (by decide)]
    · unfold loanBookSettledSql
      rw [hc]
      rw [if_neg Bool.false_ne_true, if_neg (by decide)]
    · unfold loanBookCollectedSql
      rw [hc]
      rw [if_neg Bool.false_ne_true, if_neg (by decide)]
    · unfold merchantBreakdownSql merchantBreakdownWhere
      rw [hc]
      rw [if_neg Bool.false_ne_true, if_neg (by decide)]

/-- Witness for C10: a present `from` with an absent `to` produces the
unfiltered applied-count query. -/
theorem sql_builders_date_rule_witness :
    appliedCountSql true (some "2024-01-01") none = appliedCountSql true none none :=
  (sql_builders_date_rule.2 true (some "2024-01-01") none (by decide)).1
